import Mathlib

/-!
Shallow embedding of the terraform-provider-overseerr repository
(internal/provider/provider.go and internal/provider/settings_resource.go).

Terraform framework values (`types.String`, `types.Bool`, `types.Float64`)
are tri-state: unknown, null, or a known value.  Go `float64` values are
modelled by rationals; the Go conversion `float32(x)` (the only numeric
narrowing in the code, at `Settings.read`) is kept abstract as a parameter
`narrow : ℚ → ℚ`, while the widening `float64(y)` of a float32 `y`
(at `Settings.write`) is exact and is therefore the identity on the carrier.
-/

/-- Terraform `types.String`: unknown, null, or a known string. -/
inductive TFString
  | unknown
  | null
  | value (s : String)
deriving DecidableEq

/-- Terraform `types.Bool`. -/
inductive TFBool
  | unknown
  | null
  | value (b : Bool)
deriving DecidableEq

/-- Terraform `types.Float64` (Go float64 modelled by ℚ). -/
inductive TFFloat64
  | unknown
  | null
  | value (x : ℚ)
deriving DecidableEq

/-- `types.String.ValueString()`: the known value, or "" for null/unknown. -/
def TFString.valueString : TFString → String
  | .value s => s
  | _ => ""

/-- `types.Bool.ValueBool()`: the known value, or false for null/unknown. -/
def TFBool.valueBool : TFBool → Bool
  | .value b => b
  | _ => false

/-- `types.Float64.ValueFloat64()`: the known value, or 0 for null/unknown. -/
def TFFloat64.valueFloat64 : TFFloat64 → ℚ
  | .value x => x
  | _ => 0

/-- `types.String.IsUnknown()`. -/
def TFString.isUnknown : TFString → Bool
  | .unknown => true
  | _ => false

/-- `types.String.IsNull()`. -/
def TFString.isNull : TFString → Bool
  | .null => true
  | _ => false

/-- The local `Settings` model of `settings_resource.go` (ten fields,
field names as in the Go struct). -/
structure Settings where
  DefaultPermissions : TFFloat64
  AppLanguage : TFString
  ApplicationTitle : TFString
  ApplicationURL : TFString
  TrustProxy : TFBool
  CsrfProtection : TFBool
  HideAvailable : TFBool
  PartialRequestsEnabled : TFBool
  LocalLogin : TFBool
  NewPlexLogin : TFBool
deriving DecidableEq

/-- The generated SDK's `overseerr.MainSettings` remote object: every field
is optional (unset until a `SetX` call); `DefaultPermissions` is a Go
float32, modelled on the carrier ℚ. -/
structure MainSettings where
  AppLanguage : Option String
  ApplicationUrl : Option String
  ApplicationTitle : Option String
  DefaultPermissions : Option ℚ
  TrustProxy : Option Bool
  CsrfProtection : Option Bool
  HideAvailable : Option Bool
  PartialRequestsEnabled : Option Bool
  LocalLogin : Option Bool
  NewPlexLogin : Option Bool
deriving DecidableEq

/-- `overseerr.NewMainSettings()`: all fields unset. -/
def MainSettings.new : MainSettings :=
  ⟨none, none, none, none, none, none, none, none, none, none⟩

/-- SDK getter: the set value, or the zero value when unset. -/
def MainSettings.GetAppLanguage (m : MainSettings) : String := m.AppLanguage.getD ""

/-- SDK getter. -/
def MainSettings.GetApplicationUrl (m : MainSettings) : String := m.ApplicationUrl.getD ""

/-- SDK getter. -/
def MainSettings.GetApplicationTitle (m : MainSettings) : String := m.ApplicationTitle.getD ""

/-- SDK getter (float32 zero value is 0). -/
def MainSettings.GetDefaultPermissions (m : MainSettings) : ℚ := m.DefaultPermissions.getD 0

/-- SDK getter. -/
def MainSettings.GetTrustProxy (m : MainSettings) : Bool := m.TrustProxy.getD false

/-- SDK getter. -/
def MainSettings.GetCsrfProtection (m : MainSettings) : Bool := m.CsrfProtection.getD false

/-- SDK getter. -/
def MainSettings.GetHideAvailable (m : MainSettings) : Bool := m.HideAvailable.getD false

/-- SDK getter. -/
def MainSettings.GetPartialRequestsEnabled (m : MainSettings) : Bool := m.PartialRequestsEnabled.getD false

/-- SDK getter. -/
def MainSettings.GetLocalLogin (m : MainSettings) : Bool := m.LocalLogin.getD false

/-- SDK getter. -/
def MainSettings.GetNewPlexLogin (m : MainSettings) : Bool := m.NewPlexLogin.getD false

/-- `Settings.write` (`settings_resource.go:217`): remote → local; sets all
ten fields of the receiver from the remote response.  The Go widening
`float64(settings.GetDefaultPermissions())` is exact, hence identity here.
The receiver's prior field values are all overwritten. -/
def Settings.write (_s : Settings) (m : MainSettings) : Settings where
  AppLanguage := .value m.GetAppLanguage
  ApplicationURL := .value m.GetApplicationUrl
  ApplicationTitle := .value m.GetApplicationTitle
  DefaultPermissions := .value m.GetDefaultPermissions
  TrustProxy := .value m.GetTrustProxy
  CsrfProtection := .value m.GetCsrfProtection
  HideAvailable := .value m.GetHideAvailable
  PartialRequestsEnabled := .value m.GetPartialRequestsEnabled
  LocalLogin := .value m.GetLocalLogin
  NewPlexLogin := .value m.GetNewPlexLogin

/-- `Settings.read` (`settings_resource.go:230`): local → remote; starts from
`NewMainSettings()` and calls `SetX` for every one of the ten fields, so every
field of the request ends up set.  `narrow` is the Go conversion
`float32(·)` applied to `s.DefaultPermissions.ValueFloat64()`. -/
def Settings.read (narrow : ℚ → ℚ) (s : Settings) : MainSettings where
  AppLanguage := some s.AppLanguage.valueString
  ApplicationUrl := some s.ApplicationURL.valueString
  ApplicationTitle := some s.ApplicationTitle.valueString
  DefaultPermissions := some (narrow s.DefaultPermissions.valueFloat64)
  TrustProxy := some s.TrustProxy.valueBool
  CsrfProtection := some s.CsrfProtection.valueBool
  HideAvailable := some s.HideAvailable.valueBool
  PartialRequestsEnabled := some s.PartialRequestsEnabled.valueBool
  LocalLogin := some s.LocalLogin.valueBool
  NewPlexLogin := some s.NewPlexLogin.valueBool

/-- Diagnostic severity, as in the plugin framework. -/
inductive Severity
  | error
  | warning
deriving DecidableEq

/-- A framework diagnostic (summary + detail). -/
structure Diagnostic where
  severity : Severity
  summary : String
  detail : String
deriving DecidableEq

/-- The remote calls the resource can issue: `SettingsAPI.CreateMain` with a
`MainSettings` body, or `SettingsAPI.GetMain`. -/
inductive RemoteCall
  | createMain (request : MainSettings)
  | getMain
deriving DecidableEq

/-- Outcome of a resource CRUD operation: the state it wrote via
`resp.State.Set` (none when it returned without writing), the diagnostics it
added, and the remote calls it issued. -/
structure OpResult where
  newState : Option Settings
  diagnostics : List Diagnostic
  calls : List RemoteCall
deriving DecidableEq

/-- `SettingsResource.Create` (`settings_resource.go:129`), as a function of
the decoded plan and the result of the single `CreateMain` remote call. -/
def SettingsResource.create (narrow : ℚ → ℚ) (plan : Settings)
    (remoteResult : Except String MainSettings) : OpResult :=
  let request := plan.read narrow
  match remoteResult with
  | .error err =>
      { newState := none
        diagnostics := [⟨.error, "Client Error",
          "Unable to create config, got error: " ++ err⟩]
        calls := [.createMain request] }
  | .ok response =>
      { newState := some (plan.write response)
        diagnostics := []
        calls := [.createMain request] }

/-- `SettingsResource.Update` (`settings_resource.go:180`), as a function of
the decoded plan and the result of the single `CreateMain` remote call. -/
def SettingsResource.update (narrow : ℚ → ℚ) (plan : Settings)
    (remoteResult : Except String MainSettings) : OpResult :=
  let request := plan.read narrow
  match remoteResult with
  | .error err =>
      { newState := none
        diagnostics := [⟨.error, "Client Error",
          "Unable to update config, got error: " ++ err⟩]
        calls := [.createMain request] }
  | .ok response =>
      { newState := some (plan.write response)
        diagnostics := []
        calls := [.createMain request] }

/-- `SettingsResource.Read` (`settings_resource.go:156`), as a function of the
decoded prior state and the result of the single `GetMain` remote call. -/
def SettingsResource.readOp (state : Settings)
    (remoteResult : Except String MainSettings) : OpResult :=
  match remoteResult with
  | .error err =>
      { newState := none
        diagnostics := [⟨.error, "Client Error",
          "Unable to read config, got error: " ++ err⟩]
        calls := [.getMain] }
  | .ok response =>
      { newState := some (state.write response)
        diagnostics := []
        calls := [.getMain] }

/-- Outcome of `Delete`: whether `resp.State.RemoveResource` was called,
plus diagnostics and remote calls. -/
structure DeleteResult where
  stateRemoved : Bool
  diagnostics : List Diagnostic
  calls : List RemoteCall
deriving DecidableEq

/-- `SettingsResource.Delete` (`settings_resource.go:207`): only a trace log
and `resp.State.RemoveResource(ctx)`; no remote call, no diagnostic. -/
def SettingsResource.delete (_state : Settings) : DeleteResult :=
  { stateRemoved := true
    diagnostics := []
    calls := [] }

/-- The attribute names of the resource schema
(`settings_resource.go:51-108`), in source order. -/
def settingsSchemaAttributes : List String :=
  ["new_plex_login", "local_login", "partial_requests_enabled",
   "hide_available", "csrf_protection", "trust_proxy",
   "default_permissions", "application_url", "application_title",
   "app_language"]

/-- The SDK's `overseerr.APIClient`, reduced to what the provider configures:
the single server target URL and the default headers
(`NewConfiguration` starts with no default header; `AddDefaultHeader`
appends; `Servers[0].URL` is the single server target). -/
structure APIClient where
  serverURL : String
  defaultHeaders : List (String × String)
deriving DecidableEq

/-- The provider data handle passed to `SettingsResource.Configure`: either
the expected `*overseerr.APIClient`, or a value of some other type (recorded
by its type name, used in the error message). -/
inductive ProviderData
  | apiClient (c : APIClient)
  | other (typeName : String)
deriving DecidableEq

/-- Outcome of `SettingsResource.Configure`: the stored client afterwards and
the diagnostics added. -/
structure ResourceConfigureResult where
  client : Option APIClient
  diagnostics : List Diagnostic
deriving DecidableEq

/-- `SettingsResource.Configure` (`settings_resource.go:110`): nil handle is a
no-op; a wrong-typed handle adds an error and stores nothing; the expected
type is stored in `r.client`. -/
def SettingsResource.configure (current : Option APIClient)
    (providerData : Option ProviderData) : ResourceConfigureResult :=
  match providerData with
  | none => { client := current, diagnostics := [] }
  | some (.other t) =>
      { client := current
        diagnostics := [⟨.error, "Unexpected Resource Configure Type",
          "Expected *sonarr.APIClient, got: " ++ t ++
            ". Please report this issue to the provider developers."⟩] }
  | some (.apiClient c) => { client := some c, diagnostics := [] }

/-- The provider's config data model `Overseerr` (provider source file). -/
structure Overseerr where
  APIKey : TFString
  URL : TFString
deriving DecidableEq

/-- Outcome of `OverseerrProvider.Configure`: diagnostics and the published
`resp.ResourceData` / `resp.DataSourceData` handles (none = never assigned). -/
structure ProviderConfigureResult where
  diagnostics : List Diagnostic
  resourceData : Option APIClient
  dataSourceData : Option APIClient
deriving DecidableEq

/-- Resolution of the url: the explicit value when not null, else
`os.Getenv "OVERSEERR_URL"` (`env` models `os.Getenv`, "" when unset). -/
def resolveURL (env : String → String) (data : Overseerr) : String :=
  if data.URL.isNull then env "OVERSEERR_URL" else data.URL.valueString

/-- Resolution of the api key: the explicit value when not null, else
`os.Getenv "OVERSEERR_API_KEY"`. -/
def resolveAPIKey (env : String → String) (data : Overseerr) : String :=
  if data.APIKey.isNull then env "OVERSEERR_API_KEY" else data.APIKey.valueString

/-- `OverseerrProvider.Configure` (provider source file, lines 57-130), as a
function of the decoded config and the environment. -/
def OverseerrProvider.configure (env : String → String)
    (data : Overseerr) : ProviderConfigureResult :=
  if data.URL.isUnknown then
    { diagnostics := [⟨.warning, "Unable to create client",
        "Cannot use unknown value as url"⟩]
      resourceData := none
      dataSourceData := none }
  else
    let url := resolveURL env data
    if url = "" then
      { diagnostics := [⟨.error, "Unable to find URL",
          "URL cannot be an empty string"⟩]
        resourceData := none
        dataSourceData := none }
    else if data.APIKey.isUnknown then
      { diagnostics := [⟨.warning, "Unable to create client",
          "Cannot use unknown value as api_key"⟩]
        resourceData := none
        dataSourceData := none }
    else
      let key := resolveAPIKey env data
      if key = "" then
        { diagnostics := [⟨.error, "Unable to find API key",
            "API key cannot be an empty string"⟩]
          resourceData := none
          dataSourceData := none }
      else
        let client : APIClient :=
          { serverURL := url, defaultHeaders := [("X-Api-Key", key)] }
        { diagnostics := []
          resourceData := some client
          dataSourceData := some client }

/-- A `Settings` model all of whose ten fields are known (non-null,
non-unknown); every fully known model has this form. -/
def Settings.known (dp : ℚ) (al atitle aurl : String)
    (tp cp ha pre ll np : Bool) : Settings where
  DefaultPermissions := .value dp
  AppLanguage := .value al
  ApplicationTitle := .value atitle
  ApplicationURL := .value aurl
  TrustProxy := .value tp
  CsrfProtection := .value cp
  HideAvailable := .value ha
  PartialRequestsEnabled := .value pre
  LocalLogin := .value ll
  NewPlexLogin := .value np

/-- A sample fully known plan, used as concrete input below. -/
def planSample : Settings :=
  Settings.known 2 "en" "overseerr" "http://localhost:5055"
    true true false true false false

/-- Claim C1 (code bug in the source): the resource schema defines no "id"
attribute at all (and the `Settings` model has no id field, so Create/Read
never set one), although the repository's own acceptance test checks that
"id" is set on the created resource. -/
theorem settings_schema_has_no_id : "id" ∉ settingsSchemaAttributes := by
  decide

/-- Claim C2, counterexample: Create and Update are not extensionally equal
as functions of (plan, remote response): on a failed remote call their
error-diagnostic texts differ ("Unable to create config" vs
"Unable to update config"). -/
theorem create_update_differ_on_error :
    SettingsResource.create id planSample (.error "boom") ≠
      SettingsResource.update id planSample (.error "boom") := by
  intro h
  have hd := congrArg OpResult.diagnostics h
  simp [SettingsResource.create, SettingsResource.update, planSample] at hd

/-- Claim C2 (amended): for every plan and remote result, Create and Update
issue the same remote call with the same request built by the same mapping,
and write the same state; on every successful remote result the two
operations are fully equal (they differ only in the error-diagnostic text). -/
theorem create_update_agree (narrow : ℚ → ℚ) (plan : Settings)
    (remoteResult : Except String MainSettings) :
    (SettingsResource.create narrow plan remoteResult).calls =
      (SettingsResource.update narrow plan remoteResult).calls ∧
    (SettingsResource.create narrow plan remoteResult).newState =
      (SettingsResource.update narrow plan remoteResult).newState ∧
    ∀ response, remoteResult = Except.ok response →
      SettingsResource.create narrow plan remoteResult =
        SettingsResource.update narrow plan remoteResult := by
  cases remoteResult <;>
    simp [SettingsResource.create, SettingsResource.update]

/-- Witness for the amended claim C2 at a concrete successful input. -/
theorem create_update_agree_witness :
    (SettingsResource.create id planSample (.ok MainSettings.new)).calls =
      (SettingsResource.update id planSample (.ok MainSettings.new)).calls ∧
    (SettingsResource.create id planSample (.ok MainSettings.new)).newState =
      (SettingsResource.update id planSample (.ok MainSettings.new)).newState ∧
    ∀ response, (Except.ok MainSettings.new : Except String MainSettings) =
        Except.ok response →
      SettingsResource.create id planSample (.ok MainSettings.new) =
        SettingsResource.update id planSample (.ok MainSettings.new) :=
  create_update_agree id planSample (.ok MainSettings.new)

/-- Claim C3: for every state, Delete issues no remote call, removes the
resource from tracked state, and reports no diagnostic. -/
theorem delete_is_local_noop (state : Settings) :
    (SettingsResource.delete state).calls = [] ∧
    (SettingsResource.delete state).stateRemoved = true ∧
    (SettingsResource.delete state).diagnostics = [] :=
  ⟨rfl, rfl, rfl⟩

/-- Claim C4: whenever the remote call fails, each of Create, Read and Update
adds exactly one error diagnostic with summary "Client Error" whose detail
contains the remote error text, and returns without writing to state. -/
theorem remote_error_atomic (narrow : ℚ → ℚ) (plan state : Settings)
    (err : String) :
    ((SettingsResource.create narrow plan (.error err)).newState = none ∧
      ∃ d, (SettingsResource.create narrow plan (.error err)).diagnostics = [d] ∧
        d.severity = .error ∧ d.summary = "Client Error" ∧
        ∃ p, d.detail = p ++ err) ∧
    ((SettingsResource.readOp state (.error err)).newState = none ∧
      ∃ d, (SettingsResource.readOp state (.error err)).diagnostics = [d] ∧
        d.severity = .error ∧ d.summary = "Client Error" ∧
        ∃ p, d.detail = p ++ err) ∧
    ((SettingsResource.update narrow plan (.error err)).newState = none ∧
      ∃ d, (SettingsResource.update narrow plan (.error err)).diagnostics = [d] ∧
        d.severity = .error ∧ d.summary = "Client Error" ∧
        ∃ p, d.detail = p ++ err) :=
  ⟨⟨rfl, _, rfl, rfl, rfl, "Unable to create config, got error: ", rfl⟩,
    ⟨rfl, _, rfl, rfl, rfl, "Unable to read config, got error: ", rfl⟩,
    ⟨rfl, _, rfl, rfl, rfl, "Unable to update config, got error: ", rfl⟩⟩

/-- Claim C5: when url and api key are known-or-null and both resolve (config
value, else environment variable) to non-empty strings, provider Configure
reports no diagnostic and publishes, identically as ResourceData and
DataSourceData, a client whose single server target is the resolved url and
whose default headers carry the resolved key under "X-Api-Key". -/
theorem provider_configure_success (env : String → String) (data : Overseerr)
    (hu : data.URL.isUnknown = false) (hk : data.APIKey.isUnknown = false)
    (hurl : resolveURL env data ≠ "") (hkey : resolveAPIKey env data ≠ "") :
    (OverseerrProvider.configure env data).diagnostics = [] ∧
    (OverseerrProvider.configure env data).resourceData =
      some ⟨resolveURL env data, [("X-Api-Key", resolveAPIKey env data)]⟩ ∧
    (OverseerrProvider.configure env data).dataSourceData =
      (OverseerrProvider.configure env data).resourceData := by
  simp [OverseerrProvider.configure, hu, hk, hurl, hkey]

/-- Witness for claim C5 at a concrete configuration. -/
theorem provider_configure_success_witness :
    (OverseerrProvider.configure (fun _ => "")
        ⟨.value "key1", .value "http://u:5055"⟩).diagnostics = [] ∧
    (OverseerrProvider.configure (fun _ => "")
        ⟨.value "key1", .value "http://u:5055"⟩).resourceData =
      some ⟨resolveURL (fun _ => "") ⟨.value "key1", .value "http://u:5055"⟩,
        [("X-Api-Key", resolveAPIKey (fun _ => "")
          ⟨.value "key1", .value "http://u:5055"⟩)]⟩ ∧
    (OverseerrProvider.configure (fun _ => "")
        ⟨.value "key1", .value "http://u:5055"⟩).dataSourceData =
      (OverseerrProvider.configure (fun _ => "")
        ⟨.value "key1", .value "http://u:5055"⟩).resourceData :=
  provider_configure_success (fun _ => "") ⟨.value "key1", .value "http://u:5055"⟩
    rfl rfl (by decide) (by decide)

/-- Claim C6: when url and api key are known-or-null and either resolves to
the empty string, provider Configure adds an error diagnostic and publishes
no client (ResourceData and DataSourceData stay unset). -/
theorem provider_configure_empty_fails (env : String → String)
    (data : Overseerr)
    (hu : data.URL.isUnknown = false) (hk : data.APIKey.isUnknown = false)
    (h : resolveURL env data = "" ∨ resolveAPIKey env data = "") :
    (∃ d ∈ (OverseerrProvider.configure env data).diagnostics,
      d.severity = .error) ∧
    (OverseerrProvider.configure env data).resourceData = none ∧
    (OverseerrProvider.configure env data).dataSourceData = none := by
  by_cases hurl : resolveURL env data = ""
  · simp [OverseerrProvider.configure, hu, hurl]
  · rcases h with h | h
    · exact absurd h hurl
    · simp [OverseerrProvider.configure, hu, hk, hurl, h]

/-- Witness for claim C6 at a concrete configuration (null url, empty
environment). -/
theorem provider_configure_empty_fails_witness :
    (∃ d ∈ (OverseerrProvider.configure (fun _ => "")
        ⟨.null, .null⟩).diagnostics, d.severity = .error) ∧
    (OverseerrProvider.configure (fun _ => "")
        ⟨.null, .null⟩).resourceData = none ∧
    (OverseerrProvider.configure (fun _ => "")
        ⟨.null, .null⟩).dataSourceData = none :=
  provider_configure_empty_fails (fun _ => "") ⟨.null, .null⟩ rfl rfl
    (Or.inl rfl)

/-- Claim C7: on a successful fetch, Read writes `state.write response`, and
that result replaces all ten fields with the response's values,
independently of the prior state. -/
theorem read_full_replacement (s1 s2 : Settings) (r : MainSettings) :
    (SettingsResource.readOp s1 (.ok r)).newState = some (s1.write r) ∧
    s1.write r = s2.write r ∧
    (s1.write r).AppLanguage = .value r.GetAppLanguage ∧
    (s1.write r).ApplicationURL = .value r.GetApplicationUrl ∧
    (s1.write r).ApplicationTitle = .value r.GetApplicationTitle ∧
    (s1.write r).DefaultPermissions = .value r.GetDefaultPermissions ∧
    (s1.write r).TrustProxy = .value r.GetTrustProxy ∧
    (s1.write r).CsrfProtection = .value r.GetCsrfProtection ∧
    (s1.write r).HideAvailable = .value r.GetHideAvailable ∧
    (s1.write r).PartialRequestsEnabled = .value r.GetPartialRequestsEnabled ∧
    (s1.write r).LocalLogin = .value r.GetLocalLogin ∧
    (s1.write r).NewPlexLogin = .value r.GetNewPlexLogin :=
  ⟨rfl, rfl, rfl, rfl, rfl, rfl, rfl, rfl, rfl, rfl, rfl, rfl⟩

/-- Claim C8: resource Configure is a three-way case split: nil handle is a
no-op with no diagnostics and an unchanged client; a wrong-typed handle adds
one error diagnostic and stores nothing; the expected type is stored. -/
theorem resource_configure_cases (current : Option APIClient) (t : String)
    (c : APIClient) :
    SettingsResource.configure current none = ⟨current, []⟩ ∧
    ((SettingsResource.configure current (some (.other t))).client = current ∧
      ∃ d, (SettingsResource.configure current (some (.other t))).diagnostics
          = [d] ∧ d.severity = .error) ∧
    SettingsResource.configure current (some (.apiClient c)) = ⟨some c, []⟩ :=
  ⟨rfl, ⟨rfl, _, rfl, rfl⟩, rfl⟩

/-- Claim C9: on a model whose ten fields are all known, with the
default-permissions value exactly representable in float32 (the narrowing
fixes it), local→remote (`read`) followed by remote→local (`write`) is the
identity: every field is a plain 1:1 copy apart from the numeric
narrowing/widening. -/
theorem read_write_roundtrip (narrow : ℚ → ℚ) (dp : ℚ)
    (al atitle aurl : String) (tp cp ha pre ll np : Bool)
    (hdp : narrow dp = dp) :
    Settings.write (Settings.known dp al atitle aurl tp cp ha pre ll np)
      (Settings.read narrow (Settings.known dp al atitle aurl tp cp ha pre ll np))
      = Settings.known dp al atitle aurl tp cp ha pre ll np := by
  simp [Settings.write, Settings.read, Settings.known,
    TFFloat64.valueFloat64, TFString.valueString, TFBool.valueBool,
    MainSettings.GetAppLanguage, MainSettings.GetApplicationUrl,
    MainSettings.GetApplicationTitle, MainSettings.GetDefaultPermissions,
    MainSettings.GetTrustProxy, MainSettings.GetCsrfProtection,
    MainSettings.GetHideAvailable, MainSettings.GetPartialRequestsEnabled,
    MainSettings.GetLocalLogin, MainSettings.GetNewPlexLogin, hdp]

/-- Witness for claim C9 at a concrete fully known model, with the identity
as the (representability-preserving) narrowing. -/
theorem read_write_roundtrip_witness :
    Settings.write (Settings.known 2 "en" "overseerr" "" true true false true
        false false)
      (Settings.read id (Settings.known 2 "en" "overseerr" "" true true false
        true false false))
      = Settings.known 2 "en" "overseerr" "" true true false true false false :=
  read_write_roundtrip id 2 "en" "overseerr" "" true true false true false
    false rfl

/-- Claim C10: the commit request Create and Update send is exactly
`plan.read narrow`, which sets all ten fields from the plan, including the
three computed/read-only ones: default permissions (narrowed), local login
and new-plex login; for a plan where those are null, the Go zero values
(0, false, false) are sent. -/
theorem commit_request_includes_all_fields (narrow : ℚ → ℚ) (plan : Settings)
    (remoteResult : Except String MainSettings) (h0 : narrow 0 = 0) :
    (SettingsResource.create narrow plan remoteResult).calls =
      [RemoteCall.createMain (plan.read narrow)] ∧
    (SettingsResource.update narrow plan remoteResult).calls =
      [RemoteCall.createMain (plan.read narrow)] ∧
    (plan.read narrow).DefaultPermissions =
      some (narrow plan.DefaultPermissions.valueFloat64) ∧
    (plan.read narrow).LocalLogin = some plan.LocalLogin.valueBool ∧
    (plan.read narrow).NewPlexLogin = some plan.NewPlexLogin.valueBool ∧
    ((plan.read narrow).AppLanguage.isSome = true ∧
      (plan.read narrow).ApplicationUrl.isSome = true ∧
      (plan.read narrow).ApplicationTitle.isSome = true ∧
      (plan.read narrow).DefaultPermissions.isSome = true ∧
      (plan.read narrow).TrustProxy.isSome = true ∧
      (plan.read narrow).CsrfProtection.isSome = true ∧
      (plan.read narrow).HideAvailable.isSome = true ∧
      (plan.read narrow).PartialRequestsEnabled.isSome = true ∧
      (plan.read narrow).LocalLogin.isSome = true ∧
      (plan.read narrow).NewPlexLogin.isSome = true) ∧
    (plan.DefaultPermissions = .null →
      (plan.read narrow).DefaultPermissions = some 0) ∧
    (plan.LocalLogin = .null → (plan.read narrow).LocalLogin = some false) ∧
    (plan.NewPlexLogin = .null →
      (plan.read narrow).NewPlexLogin = some false) := by
  refine ⟨?_, ?_, rfl, rfl, rfl,
    ⟨rfl, rfl, rfl, rfl, rfl, rfl, rfl, rfl, rfl, rfl⟩, ?_, ?_, ?_⟩
  · cases remoteResult <;> rfl
  · cases remoteResult <;> rfl
  · intro h
    simp [Settings.read, TFFloat64.valueFloat64, h, h0]
  · intro h
    simp [Settings.read, TFBool.valueBool, h]
  · intro h
    simp [Settings.read, TFBool.valueBool, h]

/-- Witness for claim C10: a plan with the three computed fields null, under
the identity narrowing, sent through a failing remote call. -/
theorem commit_request_includes_all_fields_witness :
    (SettingsResource.create id
        ⟨.null, .value "en", .value "overseerr", .value "", .value true,
          .value true, .value false, .value true, .null, .null⟩
        (.error "e")).calls =
      [RemoteCall.createMain
        (Settings.read id
          ⟨.null, .value "en", .value "overseerr", .value "", .value true,
            .value true, .value false, .value true, .null, .null⟩)] ∧
    (SettingsResource.update id
        ⟨.null, .value "en", .value "overseerr", .value "", .value true,
          .value true, .value false, .value true, .null, .null⟩
        (.error "e")).calls =
      [RemoteCall.createMain
        (Settings.read id
          ⟨.null, .value "en", .value "overseerr", .value "", .value true,
            .value true, .value false, .value true, .null, .null⟩)] ∧
    (Settings.read id
        ⟨.null, .value "en", .value "overseerr", .value "", .value true,
          .value true, .value false, .value true, .null, .null⟩).DefaultPermissions =
      some (id (TFFloat64.valueFloat64
        (⟨.null, .value "en", .value "overseerr", .value "", .value true,
          .value true, .value false, .value true, .null, .null⟩ : Settings).DefaultPermissions)) ∧
    (Settings.read id
        ⟨.null, .value "en", .value "overseerr", .value "", .value true,
          .value true, .value false, .value true, .null, .null⟩).LocalLogin =
      some (TFBool.valueBool
        (⟨.null, .value "en", .value "overseerr", .value "", .value true,
          .value true, .value false, .value true, .null, .null⟩ : Settings).LocalLogin) ∧
    (Settings.read id
        ⟨.null, .value "en", .value "overseerr", .value "", .value true,
          .value true, .value false, .value true, .null, .null⟩).NewPlexLogin =
      some (TFBool.valueBool
        (⟨.null, .value "en", .value "overseerr", .value "", .value true,
          .value true, .value false, .value true, .null, .null⟩ : Settings).NewPlexLogin) ∧
    ((Settings.read id
        ⟨.null, .value "en", .value "overseerr", .value "", .value true,
          .value true, .value false, .value true, .null, .null⟩).AppLanguage.isSome = true ∧
      (Settings.read id
        ⟨.null, .value "en", .value "overseerr", .value "", .value true,
          .value true, .value false, .value true, .null, .null⟩).ApplicationUrl.isSome = true ∧
      (Settings.read id
        ⟨.null, .value "en", .value "overseerr", .value "", .value true,
          .value true, .value false, .value true, .null, .null⟩).ApplicationTitle.isSome = true ∧
      (Settings.read id
        ⟨.null, .value "en", .value "overseerr", .value "", .value true,
          .value true, .value false, .value true, .null, .null⟩).DefaultPermissions.isSome = true ∧
      (Settings.read id
        ⟨.null, .value "en", .value "overseerr", .value "", .value true,
          .value true, .value false, .value true, .null, .null⟩).TrustProxy.isSome = true ∧
      (Settings.read id
        ⟨.null, .value "en", .value "overseerr", .value "", .value true,
          .value true, .value false, .value true, .null, .null⟩).CsrfProtection.isSome = true ∧
      (Settings.read id
        ⟨.null, .value "en", .value "overseerr", .value "", .value true,
          .value true, .value false, .value true, .null, .null⟩).HideAvailable.isSome = true ∧
      (Settings.read id
        ⟨.null, .value "en", .value "overseerr", .value "", .value true,
          .value true, .value false, .value true, .null, .null⟩).PartialRequestsEnabled.isSome = true ∧
      (Settings.read id
        ⟨.null, .value "en", .value "overseerr", .value "", .value true,
          .value true, .value false, .value true, .null, .null⟩).LocalLogin.isSome = true ∧
      (Settings.read id
        ⟨.null, .value "en", .value "overseerr", .value "", .value true,
          .value true, .value false, .value true, .null, .null⟩).NewPlexLogin.isSome = true) ∧
    ((⟨.null, .value "en", .value "overseerr", .value "", .value true,
        .value true, .value false, .value true, .null, .null⟩ : Settings).DefaultPermissions = .null →
      (Settings.read id
        ⟨.null, .value "en", .value "overseerr", .value "", .value true,
          .value true, .value false, .value true, .null, .null⟩).DefaultPermissions = some 0) ∧
    ((⟨.null, .value "en", .value "overseerr", .value "", .value true,
        .value true, .value false, .value true, .null, .null⟩ : Settings).LocalLogin = .null →
      (Settings.read id
        ⟨.null, .value "en", .value "overseerr", .value "", .value true,
          .value true, .value false, .value true, .null, .null⟩).LocalLogin = some false) ∧
    ((⟨.null, .value "en", .value "overseerr", .value "", .value true,
        .value true, .value false, .value true, .null, .null⟩ : Settings).NewPlexLogin = .null →
      (Settings.read id
        ⟨.null, .value "en", .value "overseerr", .value "", .value true,
          .value true, .value false, .value true, .null, .null⟩).NewPlexLogin = some false) :=
  commit_request_includes_all_fields id
    ⟨.null, .value "en", .value "overseerr", .value "", .value true,
      .value true, .value false, .value true, .null, .null⟩
    (.error "e") rfl
